import Mathlib

/-!
Shallow embedding of `src/keboola/http_client/retry_wrapper.py` (class
`RetryTransport`) and proofs about its retry/backoff behaviour.

Modelling choices:
* Rational numbers (`ℚ`) stand for Python floats; all arithmetic in the
  source is exact on the inputs considered here.
* The ambient effects of the code are explicit parameters: the wrapped
  transport is a function from the 0-based send index to the response it
  returns, `dateutil.parser.isoparse` composed with `astimezone` is a
  function `String → Option ℚ` giving seconds since epoch (`none` models the
  `ValueError` branch), `datetime.now().astimezone()` is a rational `now`,
  and `random.choice([1, -1])` is a stream of signs indexed by the
  `attempts_made` value at which the choice is drawn.
* Python string primitives (`str.strip`, `str.isdigit`, `str.lower`,
  integer parsing) are modelled structurally over the character list of the
  string so that every definition evaluates by kernel reduction.
* Executions are recorded as traces of events: sends through the wrapped
  transport, closes of intermediate responses, and sleeps.  A sleep event
  carries a `blocking` flag: the source imports `sleep` from `time`, and
  both `handle_request` and `handle_async_request` call that blocking
  `sleep`, so both loops emit blocking sleep events.
* The embedding is total: the Python code raises only if the wrapped
  transport raises, which is outside the modelled behaviour.
-/

namespace KeboolaHttp

/-- Header name used by `_calculate_sleep`. -/
def RETRY_AFTER_KEY : String := "Retry-After"

/-- An HTTP response as consumed by the retry transport: status code and
headers (`httpx.Response.status_code`, `httpx.Response.headers`). -/
structure Response where
  status_code : Nat
  headers : List (String × String)
deriving DecidableEq

/-- Python `str.lower` on the ASCII strings relevant here, modelled over the
character list. -/
def lowerStr (s : String) : String := String.mk (s.toList.map Char.toLower)

/-- Case-insensitive header lookup, as `httpx.Headers.get` (httpx header
names are case-insensitive). -/
def headersGet (hs : List (String × String)) (k : String) : Option String :=
  (hs.find? (fun p => lowerStr p.fst == lowerStr k)).map (fun p => p.snd)

/-- Python `x or ""` applied to an optional header value. -/
def orEmpty : Option String → String
  | some s => s
  | none => ""

/-- Python `str.strip`: drop leading and trailing whitespace, modelled over
the character list. -/
def pyStrip (s : String) : String :=
  String.mk
    (((s.toList.dropWhile Char.isWhitespace).reverse.dropWhile
        Char.isWhitespace).reverse)

/-- Python `str.isdigit` on the ASCII strings relevant here: nonempty and
all characters are decimal digits. -/
def isDigitStr (s : String) : Bool :=
  !s.toList.isEmpty && s.toList.all Char.isDigit

/-- The numeric value of a decimal digit string, as Python
`float(s)` produces for a string with `s.isdigit()` true. -/
def strToNat (s : String) : Nat :=
  s.toList.foldl (fun n c => n * 10 + (c.toNat - 48)) 0

/-- `RetryTransport.RETRYABLE_METHODS`. -/
def RETRYABLE_METHODS : List String :=
  ["HEAD", "GET", "PUT", "DELETE", "OPTIONS", "TRACE"]

/-- `RetryTransport.RETRYABLE_STATUS_CODES`. -/
def RETRYABLE_STATUS_CODES : List Nat := [413, 429, 503, 504]

/-- `RetryTransport.MAX_BACKOFF_WAIT`. -/
def MAX_BACKOFF_WAIT : ℚ := 60

/-- Message of the `ValueError` raised by `RetryTransport.__init__` for a
jitter ratio outside `[0, 0.5]` (the Python message also interpolates the
offending value). -/
def JITTER_ERROR_MESSAGE : String :=
  "jitter ratio should be between 0 and 0.5"

/-- The configuration state a constructed `RetryTransport` carries.  The
`wrapped_transport` collaborator is not part of the configuration; it lives
in `Env` below. -/
structure RetryTransport where
  max_attempts : Int
  backoff_factor : ℚ
  respect_retry_after_header : Bool
  retryable_methods : List String
  retry_status_codes : List Nat
  jitter_ratio : ℚ
  max_backoff_wait : ℚ
deriving DecidableEq

/-- `RetryTransport.__init__`: validates the jitter ratio, then stores the
configuration.  A falsy (absent or empty) `retryable_methods` or
`retry_status_codes` argument falls back to the class defaults, mirroring
`frozenset(x) if x else DEFAULT`.  The raised `ValueError` is modelled as
`Except.error`; the check runs at construction time, before any request can
be sent through the instance. -/
def RetryTransport.init (max_attempts : Int) (max_backoff_wait : ℚ)
    (backoff_factor : ℚ) ( jitter_ratio : ℚ)
    (respect_retry_after_header : Bool)
    (retryable_methods : Option (List String))
    (retry_status_codes : Option (List Nat)) :
    Except String RetryTransport :=
  if jitter_ratio < 0 ∨ jitter_ratio > 1/2 then
    Except.error JITTER_ERROR_MESSAGE
  else
    Except.ok
      { max_attempts := max_attempts
        backoff_factor := backoff_factor
        respect_retry_after_header := respect_retry_after_header
        retryable_methods :=
          match retryable_methods with
          | some ms => if ms.isEmpty then RETRYABLE_METHODS else ms
          | none => RETRYABLE_METHODS
        retry_status_codes :=
          match retry_status_codes with
          | some cs => if cs.isEmpty then RETRYABLE_STATUS_CODES else cs
          | none => RETRYABLE_STATUS_CODES
        jitter_ratio := jitter_ratio
        max_backoff_wait := max_backoff_wait }

/-- `RetryTransport._calculate_sleep` (retry_wrapper.py lines 46-65).
`iso` models `isoparse` composed with `astimezone` (`none` = `ValueError`),
`now` models `datetime.now().astimezone()` as seconds since epoch, and
`sign` models the value of `random.choice([1, -1])` drawn in this call. -/
def RetryTransport.calculate_sleep (t : RetryTransport)
    (iso : String → Option ℚ) (now : ℚ) (sign : ℚ)
    (attempts_made : Nat) (headers : List (String × String)) : ℚ :=
  let retry_after_header := pyStrip (orEmpty (headersGet headers RETRY_AFTER_KEY))
  let backoff := t.backoff_factor * 2 ^ (attempts_made - 1)
  let jitter := backoff * t.jitter_ratio * sign
  let total_backoff := backoff + jitter
  let fallback := min total_backoff t.max_backoff_wait
  if t.respect_retry_after_header ∧ retry_after_header ≠ "" then
    if isDigitStr retry_after_header then
      (strToNat retry_after_header : ℚ)
    else
      match iso retry_after_header with
      | some parsed_date =>
        if parsed_date - now > 0 then min (parsed_date - now) t.max_backoff_wait
        else fallback
      | none => fallback
  else fallback

/-- Observable transport events of one `handle_request` /
`handle_async_request` execution.  `send i` is the `i`-th (0-based) call of
the wrapped transport, `close i` closes the response of send `i`, and
`sleep blocking d` is a sleep of `d` seconds, `blocking = true` meaning the
blocking `time.sleep` (which is what both code paths call). -/
inductive Event where
  | send (i : Nat)
  | close (i : Nat)
  | sleep (blocking : Bool) (d : ℚ)
deriving DecidableEq

/-- Ambient environment of one logical request: `transport i` is the
response the wrapped transport returns on its `i`-th call, plus the
timestamp parser, the current time and the jitter-sign stream (see
`RetryTransport.calculate_sleep`). -/
structure Env where
  transport : Nat → Response
  iso : String → Option ℚ
  now : ℚ
  signs : Nat → ℚ

/-- The `while True` retry loop of `RetryTransport.handle_request`
(retry_wrapper.py lines 74-90).  `fuel` is `remaining_attempts` clamped at 0
(the loop returns whenever `remaining_attempts < 1`), `idx` is the 0-based
index of the send that produced `response`, and `attempts_made = idx + 1`.
Returns the trace of events of the loop together with the returned
response. -/
def RetryTransport.request_loop (t : RetryTransport) (e : Env) :
    Nat → Nat → Response → List Event × Response
  | 0, _, response => ([], response)
  | Nat.succ fuel, idx, response =>
    if response.status_code ∈ t.retry_status_codes then
      let sleep_for :=
        t.calculate_sleep e.iso e.now (e.signs (idx + 1)) (idx + 1) response.headers
      let rest := t.request_loop e fuel (idx + 1) (e.transport (idx + 1))
      (Event.close idx :: Event.sleep true sleep_for :: Event.send (idx + 1) :: rest.1,
        rest.2)
    else ([], response)

/-- `RetryTransport.handle_request` (retry_wrapper.py lines 67-90): one
unconditional initial send, an early return for non-retryable methods, then
the retry loop with `remaining_attempts = max_attempts - 1`. -/
def RetryTransport.handle_request (t : RetryTransport) (e : Env)
    (method : String) : List Event × Response :=
  let response := e.transport 0
  if method ∈ t.retryable_methods then
    let rest := t.request_loop e (t.max_attempts - 1).toNat 0 response
    (Event.send 0 :: rest.1, rest.2)
  else ([Event.send 0], response)

/-- The `while True` retry loop of `RetryTransport.handle_async_request`
(retry_wrapper.py lines 102-115).  The source is textually identical to the
synchronous loop; in particular the wait is performed by the module-level
`from time import sleep`, a blocking call, not an asyncio suspension, so the
emitted sleep event has `blocking = true`. -/
def RetryTransport.async_request_loop (t : RetryTransport) (e : Env) :
    Nat → Nat → Response → List Event × Response
  | 0, _, response => ([], response)
  | Nat.succ fuel, idx, response =>
    if response.status_code ∈ t.retry_status_codes then
      let sleep_for :=
        t.calculate_sleep e.iso e.now (e.signs (idx + 1)) (idx + 1) response.headers
      let rest := t.async_request_loop e fuel (idx + 1) (e.transport (idx + 1))
      (Event.close idx :: Event.sleep true sleep_for :: Event.send (idx + 1) :: rest.1,
        rest.2)
    else ([], response)

/-- `RetryTransport.handle_async_request` (retry_wrapper.py lines 92-115),
textually identical to `handle_request` up to `await`. -/
def RetryTransport.handle_async_request (t : RetryTransport) (e : Env)
    (method : String) : List Event × Response :=
  let response := e.transport 0
  if method ∈ t.retryable_methods then
    let rest := t.async_request_loop e (t.max_attempts - 1).toNat 0 response
    (Event.send 0 :: rest.1, rest.2)
  else ([Event.send 0], response)

/-- Whether an event is a send through the wrapped transport. -/
def Event.isSend : Event → Bool
  | Event.send _ => true
  | _ => false

/-- Whether an event is a sleep (equivalently, one `_calculate_sleep`
computation: the code computes the backoff exactly once per sleep). -/
def Event.isSleep : Event → Bool
  | Event.sleep _ _ => true
  | _ => false

/-- Number of sends through the wrapped transport in a trace. -/
def countSends (evs : List Event) : Nat := evs.countP Event.isSend

/-- Number of sleeps (= number of backoff computations) in a trace. -/
def countSleeps (evs : List Event) : Nat := evs.countP Event.isSleep

/-- The three events one iteration of the retry loop appends when retrying
the response of send `i`: close it, sleep, resend. -/
def retryBlock (t : RetryTransport) (e : Env) (i : Nat) : List Event :=
  [Event.close i,
   Event.sleep true
     (t.calculate_sleep e.iso e.now (e.signs (i + 1)) (i + 1) (e.transport i).headers),
   Event.send (i + 1)]

/-- Concatenation of `m` consecutive retry blocks starting at send index
`idx`. -/
def blocksFrom (t : RetryTransport) (e : Env) (idx : Nat) : Nat → List Event
  | 0 => []
  | Nat.succ m => retryBlock t e idx ++ blocksFrom t e (idx + 1) m

/-- Number of retries the loop performs when started with `fuel` remaining
attempts on the response of send `idx`: walk forward while statuses are
retryable, at most `fuel` steps. -/
def retriesDone (t : RetryTransport) (e : Env) : Nat → Nat → Nat
  | 0, _ => 0
  | Nat.succ fuel, idx =>
    if (e.transport idx).status_code ∈ t.retry_status_codes then
      retriesDone t e fuel (idx + 1) + 1
    else 0

/-- HTTP method strings used in concrete scenarios. -/
def mGET : String := "GET"

/-- `POST`, which is not in the default retryable-method set. -/
def mPOST : String := "POST"

/-- The transport produced by `RetryTransport.__init__` with all-default
arguments except `max_attempts = n`. -/
def mkDefaultAttempts (n : Int) : RetryTransport :=
  { max_attempts := n
    backoff_factor := 1/10
    respect_retry_after_header := true
    retryable_methods := RETRYABLE_METHODS
    retry_status_codes := RETRYABLE_STATUS_CODES
    jitter_ratio := 1/10
    max_backoff_wait := 60 }

/-- Environment whose wrapped transport answers 429 to the first send and
200 to every later one. -/
def envFirst429 (h1 h2 : List (String × String)) (iso : String → Option ℚ)
    (now : ℚ) (signs : Nat → ℚ) : Env :=
  { transport := fun i => if i = 0 then ⟨429, h1⟩ else ⟨200, h2⟩
    iso := iso
    now := now
    signs := signs }

/-- Concrete instance of `envFirst429` with headerless responses, a parser
that never succeeds, and jitter sign always `+1`. -/
def envRetryOnce : Env := envFirst429 [] [] (fun _ => none) 0 (fun _ => 1)

/-- Environment whose wrapped transport answers 429 (headerless) to every
send. -/
def envAll429 : Env :=
  { transport := fun _ => ⟨429, []⟩
    iso := fun _ => none
    now := 0
    signs := fun _ => 1 }

/-- A `Retry-After` value holding an absolute ISO-8601 timestamp
(2020-01-01T00:00:00+00:00, i.e. 1577836800 seconds since epoch). -/
def isoHdrC3 : String := "2020-01-01T00:00:00+00:00"

/-- Timestamp parser recognising exactly `isoHdrC3`. -/
def isoFnC3 : String → Option ℚ :=
  fun s => if s = isoHdrC3 then some 1577836800 else none

/-- A valid configuration with `backoff_factor = 1` and zero jitter, used to
make the fallback backoff value easy to read. -/
def tC3 : RetryTransport :=
  { max_attempts := 10
    backoff_factor := 1
    respect_retry_after_header := true
    retryable_methods := RETRYABLE_METHODS
    retry_status_codes := RETRYABLE_STATUS_CODES
    jitter_ratio := 0
    max_backoff_wait := 60 }

theorem async_loop_eq_loop (t : RetryTransport) (e : Env) :
    ∀ fuel idx response,
      t.async_request_loop e fuel idx response = t.request_loop e fuel idx response := by
  intro fuel
  induction fuel with
  | zero => intro idx response; rfl
  | succ fuel ih =>
    intro idx response
    simp only [RetryTransport.async_request_loop, RetryTransport.request_loop, ih]

theorem request_loop_shape (t : RetryTransport) (e : Env) :
    ∀ fuel idx, t.request_loop e fuel idx (e.transport idx) =
      (blocksFrom t e idx (retriesDone t e fuel idx),
        e.transport (idx + retriesDone t e fuel idx)) := by
  intro fuel
  induction fuel with
  | zero => intro idx; simp [RetryTransport.request_loop, retriesDone, blocksFrom]
  | succ fuel ih =>
    intro idx
    by_cases h : (e.transport idx).status_code ∈ t.retry_status_codes
    · simp only [RetryTransport.request_loop, retriesDone, if_pos h, ih (idx + 1),
        blocksFrom, retryBlock]
      have harith : idx + (retriesDone t e fuel (idx + 1) + 1) =
          idx + 1 + retriesDone t e fuel (idx + 1) := by omega
      rw [harith]
      simp
    · simp [RetryTransport.request_loop, retriesDone, h, blocksFrom]

theorem retriesDone_all (t : RetryTransport) (e : Env)
    (hall : ∀ i, (e.transport i).status_code ∈ t.retry_status_codes) :
    ∀ fuel idx, retriesDone t e fuel idx = fuel := by
  intro fuel
  induction fuel with
  | zero => intro idx; rfl
  | succ fuel ih =>
    intro idx
    simp [retriesDone, hall idx, ih (idx + 1)]

theorem countSends_blocksFrom (t : RetryTransport) (e : Env) :
    ∀ m idx, countSends (blocksFrom t e idx m) = m := by
  intro m
  induction m with
  | zero => intro idx; rfl
  | succ m ih =>
    intro idx
    simp [blocksFrom, countSends, List.countP_append, retryBlock, List.countP_cons,
      Event.isSend] at *
    exact ih (idx + 1)

theorem count_close_blocksFrom (t : RetryTransport) (e : Env) (i : Nat) :
    ∀ m idx, (blocksFrom t e idx m).count (Event.close i) =
      if idx ≤ i ∧ i < idx + m then 1 else 0 := by
  intro m
  induction m with
  | zero =>
    intro idx
    rw [show blocksFrom t e idx 0 = [] from rfl, List.count_nil, if_neg (by omega)]
  | succ m ih =>
    intro idx
    rw [blocksFrom, List.count_append, ih (idx + 1)]
    by_cases hi : idx = i
    · subst hi
      have h1 : (retryBlock t e idx).count (Event.close idx) = 1 := by
        simp [retryBlock, List.count_cons]
      rw [h1]
      have : ¬ (idx + 1 ≤ idx ∧ idx < idx + 1 + m) := by omega
      rw [if_neg this, if_pos (by omega)]
    · have h0 : (retryBlock t e idx).count (Event.close i) = 0 := by
        simp [retryBlock, List.count_cons]
        omega
      rw [h0]
      by_cases hr : idx + 1 ≤ i ∧ i < idx + 1 + m
      · rw [if_pos hr, if_pos (by omega)]
      · rw [if_neg hr, if_neg (by omega)]

theorem send_mem_blocksFrom (t : RetryTransport) (e : Env) (j : Nat) :
    ∀ m idx, Event.send j ∈ blocksFrom t e idx m ↔ (idx < j ∧ j ≤ idx + m) := by
  intro m
  induction m with
  | zero =>
    intro idx
    simp only [blocksFrom, List.not_mem_nil, false_iff]
    omega
  | succ m ih =>
    intro idx
    rw [blocksFrom, List.mem_append, ih (idx + 1)]
    simp [retryBlock]
    omega

theorem close_send_sublist_blocksFrom (t : RetryTransport) (e : Env) (i : Nat) :
    ∀ m idx, idx ≤ i → i < idx + m →
      List.Sublist [Event.close i, Event.send (i + 1)] (blocksFrom t e idx m) := by
  intro m
  induction m with
  | zero => intro idx h1 h2; omega
  | succ m ih =>
    intro idx h1 h2
    rw [blocksFrom]
    by_cases hi : i = idx
    · subst hi
      refine List.Sublist.trans ?_ (List.sublist_append_left _ _)
      rw [retryBlock]
      exact List.Sublist.cons₂ _ (List.Sublist.cons _ (List.Sublist.refl _))
    · exact List.Sublist.trans (ih (idx + 1) (by omega) (by omega))
        (List.sublist_append_right _ _)

theorem handle_async_eq_handle (t : RetryTransport) (e : Env) (method : String) :
    t.handle_async_request e method = t.handle_request e method := by
  simp only [RetryTransport.handle_async_request, RetryTransport.handle_request,
    async_loop_eq_loop]

theorem handle_request_of_retryable (t : RetryTransport) (e : Env) (method : String)
    (hm : method ∈ t.retryable_methods) :
    t.handle_request e method =
      (Event.send 0 :: blocksFrom t e 0 (retriesDone t e (t.max_attempts - 1).toNat 0),
        e.transport (retriesDone t e (t.max_attempts - 1).toNat 0)) := by
  simp only [RetryTransport.handle_request, if_pos hm,
    request_loop_shape t e ((t.max_attempts - 1).toNat) 0, Nat.zero_add]

theorem handle_request_of_non_retryable (t : RetryTransport) (e : Env)
    (method : String) (hm : method ∉ t.retryable_methods) :
    t.handle_request e method = ([Event.send 0], e.transport 0) := by
  simp [RetryTransport.handle_request, hm]

theorem init_default_eq (n : Int) :
    RetryTransport.init n 60 (1/10) (1/10) true none none =
      Except.ok (mkDefaultAttempts n) := by
  unfold RetryTransport.init
  rw [if_neg (by norm_num)]
  rfl

theorem calc_sleep_no_hint (t : RetryTransport) (iso : String → Option ℚ)
    (now sign : ℚ) (attempts_made : Nat) (headers : List (String × String))
    (hnohint : pyStrip (orEmpty (headersGet headers RETRY_AFTER_KEY)) = "") :
    t.calculate_sleep iso now sign attempts_made headers =
      min (t.backoff_factor * 2 ^ (attempts_made - 1) +
            t.backoff_factor * 2 ^ (attempts_made - 1) * t.jitter_ratio * sign)
        t.max_backoff_wait := by
  rw [RetryTransport.calculate_sleep, hnohint]
  simp

theorem calc_sleep_past_fallback (t : RetryTransport) (iso : String → Option ℚ)
    (now sign : ℚ) (attempts_made : Nat) (headers : List (String × String)) (ts : ℚ)
    (hresp : t.respect_retry_after_header = true)
    (hne : pyStrip (orEmpty (headersGet headers RETRY_AFTER_KEY)) ≠ "")
    (hnotdigit : isDigitStr (pyStrip (orEmpty (headersGet headers RETRY_AFTER_KEY))) = false)
    (hiso : iso (pyStrip (orEmpty (headersGet headers RETRY_AFTER_KEY))) = some ts)
    (hpast : ts - now ≤ 0) :
    t.calculate_sleep iso now sign attempts_made headers =
      min (t.backoff_factor * 2 ^ (attempts_made - 1) +
            t.backoff_factor * 2 ^ (attempts_made - 1) * t.jitter_ratio * sign)
        t.max_backoff_wait := by
  rw [RetryTransport.calculate_sleep]
  simp only [hresp, hne, ne_eq, not_false_iff, true_and, if_true, hnotdigit,
    Bool.false_eq_true, if_false, hiso]
  rw [if_neg (by linarith)]

theorem handle_request_envFirst429 (h1 h2 : List (String × String))
    (iso : String → Option ℚ) (now : ℚ) (signs : Nat → ℚ) :
    (mkDefaultAttempts 3).handle_request (envFirst429 h1 h2 iso now signs) mGET =
      ([Event.send 0, Event.close 0,
        Event.sleep true ((mkDefaultAttempts 3).calculate_sleep iso now (signs 1) 1 h1),
        Event.send 1], ⟨200, h2⟩) := by
  rw [RetryTransport.handle_request]
  rw [if_pos (by decide)]
  rw [show ((mkDefaultAttempts 3).max_attempts - 1).toNat = 2 from rfl]
  rw [RetryTransport.request_loop]
  rw [if_pos (by simp [envFirst429, mkDefaultAttempts, RETRYABLE_STATUS_CODES])]
  rw [RetryTransport.request_loop]
  rw [if_neg (by simp [envFirst429, mkDefaultAttempts, RETRYABLE_STATUS_CODES])]
  simp [envFirst429]

/-- Claim C1: for a request whose method is in the retryable-method set, if
every response has a retryable status code and `max_attempts = N ≥ 2`, then
`handle_request` performs exactly `N` sends through the wrapped transport
and returns the `N`-th (final) response (the embedding is total, so nothing
is raised). -/
theorem c1_retryable_status_exhausts_all_attempts (t : RetryTransport) (e : Env)
    (method : String) (N : Nat) (hm : method ∈ t.retryable_methods)
    (hall : ∀ i, (e.transport i).status_code ∈ t.retry_status_codes)
    (hN : t.max_attempts = (N : Int)) (h2 : 2 ≤ N) :
    countSends (t.handle_request e method).1 = N ∧
    (t.handle_request e method).2 = e.transport (N - 1) := by
  have hfuel : (t.max_attempts - 1).toNat = N - 1 := by rw [hN]; omega
  rw [handle_request_of_retryable t e method hm, retriesDone_all t e hall _ 0, hfuel]
  constructor
  · have hb := countSends_blocksFrom t e (N - 1) 0
    rw [countSends] at hb
    rw [countSends, List.countP_cons, hb]
    norm_num [Event.isSend]
    omega
  · rfl

/-- Witness for C1: default configuration with `max_attempts = 3`, a GET
request, every response 429: exactly 3 sends, and the third response is
returned. -/
theorem c1_witness :
    mGET ∈ (mkDefaultAttempts 3).retryable_methods ∧
    (∀ i, (envAll429.transport i).status_code ∈ (mkDefaultAttempts 3).retry_status_codes) ∧
    (mkDefaultAttempts 3).max_attempts = ((3 : Nat) : Int) ∧ 2 ≤ 3 ∧
    (countSends ((mkDefaultAttempts 3).handle_request envAll429 mGET).1 = 3 ∧
      ((mkDefaultAttempts 3).handle_request envAll429 mGET).2 = envAll429.transport (3 - 1)) :=
  ⟨by decide,
    fun i => by
      show (429 : Nat) ∈ (mkDefaultAttempts 3).retry_status_codes
      decide,
    by decide, by decide,
    c1_retryable_status_exhausts_all_attempts (mkDefaultAttempts 3) envAll429 mGET 3
      (by decide)
      (fun i => by
        show (429 : Nat) ∈ (mkDefaultAttempts 3).retry_status_codes
        decide)
      (by decide) (by decide)⟩

/-- Claim C2: for a request whose method is not in the retryable-method set,
`handle_request` performs exactly one send and returns that first response,
whatever its status code and whatever `max_attempts` is (both are untouched
universals here). -/
theorem c2_non_retryable_method_single_send (t : RetryTransport) (e : Env)
    (method : String) (hm : method ∉ t.retryable_methods) :
    t.handle_request e method = ([Event.send 0], e.transport 0) := by
  simp [RetryTransport.handle_request, hm]

/-- Witness for C2: a POST through the default configuration returns the
first response (a 429 here) after a single send. -/
theorem c2_witness :
    mPOST ∉ (mkDefaultAttempts 3).retryable_methods ∧
    (mkDefaultAttempts 3).handle_request envRetryOnce mPOST =
      ([Event.send 0], envRetryOnce.transport 0) :=
  ⟨by decide,
    c2_non_retryable_method_single_send (mkDefaultAttempts 3) envRetryOnce mPOST
      (by decide)⟩

/-- Counterexample to claim C3 as stated: with respect-hint enabled and a
`Retry-After` header carrying a parseable absolute timestamp in the past
(2020-01-01 vs now = 1700000000), `_calculate_sleep` does NOT return
`max(0, timestamp − now) = 0`; the past-timestamp branch falls through to
the exponential backoff, here `1 * 2^0 = 1` (`backoff_factor = 1`, zero
jitter). -/
theorem c3_counterexample :
    tC3.respect_retry_after_header = true ∧
    isoFnC3 isoHdrC3 = some 1577836800 ∧
    (1577836800 : ℚ) - 1700000000 ≤ 0 ∧
    max (0 : ℚ) (1577836800 - 1700000000) = 0 ∧
    tC3.calculate_sleep isoFnC3 1700000000 1 1 [(RETRY_AFTER_KEY, isoHdrC3)] = 1 ∧
    (1 : ℚ) ≠ 0 := by
  refine ⟨rfl, by decide, by norm_num, by norm_num, ?_, by norm_num⟩
  rw [calc_sleep_past_fallback tC3 isoFnC3 1700000000 1 1 [(RETRY_AFTER_KEY, isoHdrC3)]
    1577836800 rfl (by decide) (by decide) (by decide) (by norm_num)]
  norm_num [tC3, min_def]

/-- Claim C3 (amended): with respect-hint enabled and a `Retry-After` header
whose trimmed value is non-digit, parseable, and whose timestamp is not in
the future (`ts − now ≤ 0`), `_calculate_sleep` ignores the hint and
returns the exponential backoff with jitter, capped at the ceiling; under a
valid configuration (non-negative backoff factor and ceiling, jitter ratio
in `[0, 1/2]`, sign in `{1, -1}`) that value is never negative. -/
theorem c3_amended_past_timestamp_falls_back (t : RetryTransport)
    (iso : String → Option ℚ) (now sign : ℚ) (attempts_made : Nat)
    (headers : List (String × String)) (ts : ℚ)
    (hresp : t.respect_retry_after_header = true)
    (hne : pyStrip (orEmpty (headersGet headers RETRY_AFTER_KEY)) ≠ "")
    (hnotdigit : isDigitStr (pyStrip (orEmpty (headersGet headers RETRY_AFTER_KEY))) = false)
    (hiso : iso (pyStrip (orEmpty (headersGet headers RETRY_AFTER_KEY))) = some ts)
    (hpast : ts - now ≤ 0) :
    t.calculate_sleep iso now sign attempts_made headers =
      min (t.backoff_factor * 2 ^ (attempts_made - 1) +
            t.backoff_factor * 2 ^ (attempts_made - 1) * t.jitter_ratio * sign)
        t.max_backoff_wait ∧
    (0 ≤ t.backoff_factor → 0 ≤ t.jitter_ratio → t.jitter_ratio ≤ 1/2 →
      (sign = 1 ∨ sign = -1) → 0 ≤ t.max_backoff_wait →
      0 ≤ t.calculate_sleep iso now sign attempts_made headers) := by
  have hmain := calc_sleep_past_fallback t iso now sign attempts_made headers ts
    hresp hne hnotdigit hiso hpast
  refine ⟨hmain, ?_⟩
  intro hbf hjr hjr2 hsign hcap
  rw [hmain]
  have hpow : (0 : ℚ) ≤ t.backoff_factor * 2 ^ (attempts_made - 1) := by positivity
  have hjs : 0 ≤ 1 + t.jitter_ratio * sign := by
    rcases hsign with h | h <;> subst h <;> nlinarith
  have : 0 ≤ t.backoff_factor * 2 ^ (attempts_made - 1) +
      t.backoff_factor * 2 ^ (attempts_made - 1) * t.jitter_ratio * sign := by
    nlinarith
  exact le_min this hcap

/-- Witness for the amended C3, at the counterexample's concrete input:
the past-timestamp hint yields the capped backoff `min(1 + 0, 60) = 1`,
which is non-negative. -/
theorem c3_witness :
    tC3.respect_retry_after_header = true ∧
    pyStrip (orEmpty (headersGet [(RETRY_AFTER_KEY, isoHdrC3)] RETRY_AFTER_KEY)) ≠ "" ∧
    isDigitStr (pyStrip (orEmpty (headersGet [(RETRY_AFTER_KEY, isoHdrC3)] RETRY_AFTER_KEY))) = false ∧
    isoFnC3 (pyStrip (orEmpty (headersGet [(RETRY_AFTER_KEY, isoHdrC3)] RETRY_AFTER_KEY))) = some 1577836800 ∧
    (1577836800 : ℚ) - 1700000000 ≤ 0 ∧
    (tC3.calculate_sleep isoFnC3 1700000000 1 1 [(RETRY_AFTER_KEY, isoHdrC3)] =
      min (tC3.backoff_factor * 2 ^ (1 - 1) +
            tC3.backoff_factor * 2 ^ (1 - 1) * tC3.jitter_ratio * 1)
        tC3.max_backoff_wait ∧
      (0 ≤ tC3.backoff_factor → 0 ≤ tC3.jitter_ratio → tC3.jitter_ratio ≤ 1/2 →
        ((1 : ℚ) = 1 ∨ (1 : ℚ) = -1) → 0 ≤ tC3.max_backoff_wait →
        0 ≤ tC3.calculate_sleep isoFnC3 1700000000 1 1 [(RETRY_AFTER_KEY, isoHdrC3)])) :=
  ⟨rfl, by decide, by decide, by decide, by norm_num,
    c3_amended_past_timestamp_falls_back tC3 isoFnC3 1700000000 1 1
      [(RETRY_AFTER_KEY, isoHdrC3)] 1577836800 rfl (by decide) (by decide)
      (by decide) (by norm_num)⟩

/-- Counterexample to claim C4 as stated: with the default configuration
except `max_attempts = 3`, first response 429 and second 200, a POST request
does NOT produce 2 sends and the 200: POST is not in the default
retryable-method set, so exactly one send occurs, the 429 is returned, and
the backoff is never computed. -/
theorem c4_counterexample :
    RetryTransport.init 3 60 (1/10) (1/10) true none none =
      Except.ok (mkDefaultAttempts 3) ∧
    mPOST ∉ (mkDefaultAttempts 3).retryable_methods ∧
    countSends ((mkDefaultAttempts 3).handle_request envRetryOnce mPOST).1 = 1 ∧
    ((mkDefaultAttempts 3).handle_request envRetryOnce mPOST).2.status_code = 429 ∧
    countSleeps ((mkDefaultAttempts 3).handle_request envRetryOnce mPOST).1 = 0 := by
  refine ⟨init_default_eq 3, by decide, by decide, by decide, by decide⟩

/-- Claim C4 (amended): with the default configuration except
`max_attempts = 3`, first response 429 and second 200, a request with a
default-retryable method (GET; POST is not in the default set) yields
exactly 2 sends, the 200 response is returned, and the backoff is computed
exactly once — for any headers, parser, clock and jitter signs. -/
theorem c4_amended_get_scenario (iso : String → Option ℚ) (now : ℚ)
    (signs : Nat → ℚ) (h1 h2 : List (String × String)) :
    RetryTransport.init 3 60 (1/10) (1/10) true none none =
      Except.ok (mkDefaultAttempts 3) ∧
    countSends ((mkDefaultAttempts 3).handle_request (envFirst429 h1 h2 iso now signs) mGET).1 = 2 ∧
    ((mkDefaultAttempts 3).handle_request (envFirst429 h1 h2 iso now signs) mGET).2.status_code = 200 ∧
    countSleeps ((mkDefaultAttempts 3).handle_request (envFirst429 h1 h2 iso now signs) mGET).1 = 1 := by
  rw [handle_request_envFirst429 h1 h2 iso now signs]
  exact ⟨init_default_eq 3, rfl, rfl, rfl⟩

/-- Claim C5: with respect-hint enabled and a `Retry-After` header whose
trimmed value is a digit string, `_calculate_sleep` returns exactly that
integer value in seconds — the right-hand side does not depend on
`attempts_made` and is not capped by `max_backoff_wait`. -/
theorem c5_integer_retry_after_used_directly (t : RetryTransport)
    (iso : String → Option ℚ) (now sign : ℚ) (attempts_made : Nat)
    (headers : List (String × String))
    (hresp : t.respect_retry_after_header = true)
    (hdigit : isDigitStr (pyStrip (orEmpty (headersGet headers RETRY_AFTER_KEY))) = true) :
    t.calculate_sleep iso now sign attempts_made headers =
      (strToNat (pyStrip (orEmpty (headersGet headers RETRY_AFTER_KEY))) : ℚ) := by
  have hne : pyStrip (orEmpty (headersGet headers RETRY_AFTER_KEY)) ≠ "" := by
    intro h
    rw [h] at hdigit
    exact absurd hdigit (by decide)
  rw [RetryTransport.calculate_sleep]
  simp [hresp, hne, hdigit]

/-- Witness for C5: `Retry-After: 99` at attempt 7 under the default
configuration gives a wait of exactly 99 seconds, above the 60-second
ceiling and independent of the attempt count. -/
theorem c5_witness :
    (mkDefaultAttempts 10).respect_retry_after_header = true ∧
    isDigitStr (pyStrip (orEmpty (headersGet [(RETRY_AFTER_KEY, "99")] RETRY_AFTER_KEY))) = true ∧
    (mkDefaultAttempts 10).calculate_sleep (fun _ => none) 0 1 7 [(RETRY_AFTER_KEY, "99")] =
      (strToNat (pyStrip (orEmpty (headersGet [(RETRY_AFTER_KEY, "99")] RETRY_AFTER_KEY))) : ℚ) :=
  ⟨rfl, by decide,
    c5_integer_retry_after_used_directly (mkDefaultAttempts 10) (fun _ => none) 0 1 7
      [(RETRY_AFTER_KEY, "99")] rfl (by decide)⟩

/-- Claim C6: with no usable retry hint (empty trimmed `Retry-After`), the
sleep is the exponential backoff `backoff_factor * 2^(attempts_made - 1)`
plus jitter of magnitude exactly `backoff * jitter_ratio` with the random
sign in `{1, -1}`, capped at `max_backoff_wait`; in particular for
`attempts_made = 3`, `backoff_factor = 0.1`, `jitter_ratio = 0.1` and
ceiling 60, the result lies in `[0.36, 0.44]` for either sign. -/
theorem c6_exponential_backoff_with_jitter (t : RetryTransport)
    (iso : String → Option ℚ) (now sign : ℚ) (attempts_made : Nat)
    (headers : List (String × String))
    (hnohint : pyStrip (orEmpty (headersGet headers RETRY_AFTER_KEY)) = "")
    (hsign : sign = 1 ∨ sign = -1) :
    t.calculate_sleep iso now sign attempts_made headers =
      min (t.backoff_factor * 2 ^ (attempts_made - 1) +
            t.backoff_factor * 2 ^ (attempts_made - 1) * t.jitter_ratio * sign)
        t.max_backoff_wait ∧
    (t.backoff_factor = 1/10 → t.jitter_ratio = 1/10 → t.max_backoff_wait = 60 →
      attempts_made = 3 →
      9/25 ≤ t.calculate_sleep iso now sign attempts_made headers ∧
      t.calculate_sleep iso now sign attempts_made headers ≤ 11/25) := by
  have hmain := calc_sleep_no_hint t iso now sign attempts_made headers hnohint
  refine ⟨hmain, ?_⟩
  intro hb hj hc ha
  rw [hmain, hb, hj, hc, ha]
  rcases hsign with h | h <;> subst h <;> norm_num

/-- Witness for C6: headerless response, attempt 3, default factors, sign
`+1`: raw backoff `0.4`, sleep `0.44 ∈ [9/25, 11/25]`. -/
theorem c6_witness :
    pyStrip (orEmpty (headersGet [] RETRY_AFTER_KEY)) = "" ∧
    ((1 : ℚ) = 1 ∨ (1 : ℚ) = -1) ∧
    ((mkDefaultAttempts 10).calculate_sleep (fun _ => none) 0 1 3 [] =
      min ((mkDefaultAttempts 10).backoff_factor * 2 ^ (3 - 1) +
            (mkDefaultAttempts 10).backoff_factor * 2 ^ (3 - 1) *
              (mkDefaultAttempts 10).jitter_ratio * 1)
        (mkDefaultAttempts 10).max_backoff_wait ∧
      ((mkDefaultAttempts 10).backoff_factor = 1/10 →
        (mkDefaultAttempts 10).jitter_ratio = 1/10 →
        (mkDefaultAttempts 10).max_backoff_wait = 60 → 3 = 3 →
        9/25 ≤ (mkDefaultAttempts 10).calculate_sleep (fun _ => none) 0 1 3 [] ∧
        (mkDefaultAttempts 10).calculate_sleep (fun _ => none) 0 1 3 [] ≤ 11/25)) :=
  ⟨by decide, Or.inl rfl,
    c6_exponential_backoff_with_jitter (mkDefaultAttempts 10) (fun _ => none) 0 1 3 []
      (by decide) (Or.inl rfl)⟩

/-- Claim C7: construction succeeds exactly when the jitter ratio lies in
`[0, 1/2]` — outside that range (for example `0.6 = 3/5`) `__init__` raises
the validation error before any request can be sent, and the value is never
clamped. -/
theorem c7_jitter_ratio_validated_at_construction (max_attempts : Int)
    (cap bf jr : ℚ) (respect : Bool) (ms : Option (List String))
    (cs : Option (List Nat)) :
    ((∃ t, RetryTransport.init max_attempts cap bf jr respect ms cs = Except.ok t) ↔
      (0 ≤ jr ∧ jr ≤ 1/2)) ∧
    RetryTransport.init max_attempts cap bf (3/5) respect ms cs =
      Except.error JITTER_ERROR_MESSAGE := by
  constructor
  · unfold RetryTransport.init
    by_cases h : jr < 0 ∨ jr > 1/2
    · rw [if_pos h]
      constructor
      · rintro ⟨t, ht⟩
        exact absurd ht (by simp)
      · intro hr
        rcases h with h | h <;> [linarith [hr.1]; linarith [hr.2]]
    · rw [if_neg h]
      push_neg at h
      exact ⟨fun _ => ⟨h.1, h.2⟩, fun _ => ⟨_, rfl⟩⟩
  · unfold RetryTransport.init
    rw [if_pos (by norm_num)]

/-- Claim C8: in every execution (any configuration, method and wrapped
transport), each intermediate response that is retried — i.e. whose
successor send appears in the trace — is closed exactly once, and its close
occurs before the next send; the returned response is the last one sent and
is never closed.  The async path produces the identical trace. -/
theorem c8_intermediate_responses_closed_once (t : RetryTransport) (e : Env)
    (method : String) :
    (∀ i, Event.send (i + 1) ∈ (t.handle_request e method).1 →
       ((t.handle_request e method).1.count (Event.close i) = 1 ∧
        List.Sublist [Event.close i, Event.send (i + 1)] (t.handle_request e method).1)) ∧
    (∃ m, (t.handle_request e method).2 = e.transport m ∧
       Event.send m ∈ (t.handle_request e method).1 ∧
       Event.close m ∉ (t.handle_request e method).1 ∧
       ∀ j, Event.send j ∈ (t.handle_request e method).1 → j ≤ m) ∧
    t.handle_async_request e method = t.handle_request e method := by
  refine ⟨?_, ?_, handle_async_eq_handle t e method⟩ <;>
    by_cases hm : method ∈ t.retryable_methods
  · rw [handle_request_of_retryable t e method hm]
    intro i hmem
    have hi : i < retriesDone t e (t.max_attempts - 1).toNat 0 := by
      rcases List.mem_cons.mp hmem with h0 | hb
      · exact absurd h0 (by simp)
      · have := (send_mem_blocksFrom t e (i + 1) _ 0).mp hb
        omega
    constructor
    · rw [List.count_cons, count_close_blocksFrom t e i _ 0, if_pos (by omega)]
      simp
    · exact List.Sublist.trans
        (close_send_sublist_blocksFrom t e i _ 0 (by omega) (by omega))
        (List.Sublist.cons _ (List.Sublist.refl _))
  · rw [handle_request_of_non_retryable t e method hm]
    intro i hmem
    simp at hmem
  · rw [handle_request_of_retryable t e method hm]
    refine ⟨retriesDone t e (t.max_attempts - 1).toNat 0, rfl, ?_, ?_, ?_⟩
    · rcases Nat.eq_zero_or_pos (retriesDone t e (t.max_attempts - 1).toNat 0) with h0 | hpos
      · rw [h0]; exact List.mem_cons_self _ _
      · exact List.mem_cons_of_mem _
          ((send_mem_blocksFrom t e _ _ 0).mpr (by omega))
    · rw [List.mem_cons]
      rintro (h0 | hb)
      · exact absurd h0 (by simp)
      · have := List.count_pos_iff.mpr hb
        rw [count_close_blocksFrom t e _ _ 0] at this
        simp at this
    · intro j hj
      rcases List.mem_cons.mp hj with h0 | hb
      · have : j = 0 := by simpa using h0
        omega
      · have := (send_mem_blocksFrom t e j _ 0).mp hb
        omega
  · rw [handle_request_of_non_retryable t e method hm]
    refine ⟨0, rfl, List.mem_cons_self _ _, by simp, ?_⟩
    intro j hj
    have : j = 0 := by simpa using hj
    omega

/-- Claim C9 is refuted by the code: every backoff wait performed by
`handle_async_request` is a blocking sleep (the source calls the
module-level `from time import sleep` inside the async loop), so the wait
blocks the whole calling thread — and with it the event loop and every
other in-flight task — rather than suspending only the current task. -/
theorem c9_async_backoff_sleep_is_blocking (t : RetryTransport) (e : Env)
    (method : String) (b : Bool) (d : ℚ)
    (hmem : Event.sleep b d ∈ (t.handle_async_request e method).1) : b = true := by
  rw [handle_async_eq_handle] at hmem
  by_cases hm : method ∈ t.retryable_methods
  · rw [handle_request_of_retryable t e method hm] at hmem
    rcases List.mem_cons.mp hmem with h0 | hb
    · exact absurd h0 (by simp)
    · clear hmem
      generalize 0 = idx at hb
      generalize retriesDone t e (t.max_attempts - 1).toNat idx = m at hb
      induction m generalizing idx with
      | zero => simp [blocksFrom] at hb
      | succ m ih =>
        rw [blocksFrom, List.mem_append] at hb
        rcases hb with hb | hb
        · simp [retryBlock] at hb
          exact hb.1
        · exact ih _ hb
  · rw [handle_request_of_non_retryable t e method hm] at hmem
    simp at hmem

/-- Witness for C9: the async GET whose first response is 429 sleeps with
the blocking sleep of duration `0.11` before resending. -/
theorem c9_witness :
    Event.sleep true (11/100) ∈
      ((mkDefaultAttempts 3).handle_async_request envRetryOnce mGET).1 ∧
    true = true := by
  have hd : (mkDefaultAttempts 3).calculate_sleep (fun _ => none) 0 1 1 [] = 11/100 := by
    rw [calc_sleep_no_hint (mkDefaultAttempts 3) (fun _ => none) 0 1 1 [] (by decide)]
    norm_num [mkDefaultAttempts, min_def]
  have hmem : Event.sleep true (11/100) ∈
      ((mkDefaultAttempts 3).handle_async_request envRetryOnce mGET).1 := by
    rw [handle_async_eq_handle,
      show envRetryOnce = envFirst429 [] [] (fun _ => none) 0 (fun _ => 1) from rfl,
      handle_request_envFirst429 [] [] (fun _ => none) 0 (fun _ => 1)]
    simp [hd]
  exact ⟨hmem,
    c9_async_backoff_sleep_is_blocking (mkDefaultAttempts 3) envRetryOnce mGET
      true (11/100) hmem⟩

/-- Claim C10: for a retryable method and a retryable first status, if
`max_attempts ≤ 1` (including 0 and negatives), `handle_request` still
performs exactly one send, returns that first response, closes nothing and
never sleeps (hence never computes a backoff). -/
theorem c10_max_attempts_le_one_single_send (t : RetryTransport) (e : Env)
    (method : String) (hm : method ∈ t.retryable_methods)
    (hstatus : (e.transport 0).status_code ∈ t.retry_status_codes)
    (hmax : t.max_attempts ≤ 1) :
    t.handle_request e method = ([Event.send 0], e.transport 0) ∧
    countSends (t.handle_request e method).1 = 1 ∧
    (∀ i, Event.close i ∉ (t.handle_request e method).1) ∧
    (∀ b d, Event.sleep b d ∉ (t.handle_request e method).1) := by
  have hfuel : (t.max_attempts - 1).toNat = 0 := by omega
  have h : t.handle_request e method = ([Event.send 0], e.transport 0) := by
    simp [RetryTransport.handle_request, hm, hfuel, RetryTransport.request_loop]
  refine ⟨h, ?_, ?_, ?_⟩
  · rw [h]; rfl
  · intro i; rw [h]; simp
  · intro b d; rw [h]; simp

/-- Witness for C10: `max_attempts = 0`, GET, first response 429: the trace
is a single send and the 429 is returned unclosed. -/
theorem c10_witness :
    mGET ∈ (mkDefaultAttempts 0).retryable_methods ∧
    (envAll429.transport 0).status_code ∈ (mkDefaultAttempts 0).retry_status_codes ∧
    (mkDefaultAttempts 0).max_attempts ≤ 1 ∧
    ((mkDefaultAttempts 0).handle_request envAll429 mGET = ([Event.send 0], envAll429.transport 0) ∧
      countSends ((mkDefaultAttempts 0).handle_request envAll429 mGET).1 = 1 ∧
      (∀ i, Event.close i ∉ ((mkDefaultAttempts 0).handle_request envAll429 mGET).1) ∧
      (∀ b d, Event.sleep b d ∉ ((mkDefaultAttempts 0).handle_request envAll429 mGET).1)) :=
  ⟨by decide, by decide, by decide,
    c10_max_attempts_le_one_single_send (mkDefaultAttempts 0) envAll429 mGET
      (by decide) (by decide) (by decide)⟩

end KeboolaHttp
